import Mathlib

/-
Verification of the content-extraction pipeline of the GistAI app (src/app.py).

The Python source is shallowly embedded:
  * `extract_video_id` (app.py:19-32): the four `re.search` patterns are embedded
    as a deterministic leftmost search.  Each pattern has the form
    `(?:https?:\/\/)?(?:www\.)?CORE([a-zA-Z0-9_-]+)` where CORE is a literal.
    Because the optional scheme alternatives start with 'h', the optional
    `www.` starts with 'w' and every CORE starts with 'y', at any given start
    position at most one way of consuming the optional groups can lead to a
    match, so the backtracking regex engine is equivalent to the deterministic
    strip-then-match functions below; `re.search` tries every start position
    from the left, which `searchPat` mirrors.
  * `load_youtube_content` (app.py:34-89): external effects (the three
    YoutubeLoader strategies, youtube_transcript_api, requests.get) are
    abstracted into a `YtEnv` of oracles; `none` models "the call raised".
    The function additionally returns the ordered list of network strategies
    that were attempted, used to state the no-network-call claims.
  * `load_pdf_content` (app.py:91-127): the PyPDFLoader parse is an oracle
    (`Except`: `.error` models "loader.load() raised"); the langchain
    RecursiveCharacterTextSplitter is an external library and stays an
    abstract parameter `split`.  The returned record also tracks whether the
    temporary file written at app.py:95-97 still exists after the function
    finishes, and whether the re-split branch (app.py:120-122) was taken.
  * the top-level run (app.py:618-753) is `run_app`, with the extraction
    results and the LLM call as oracles, plus a flag telling whether
    extraction was invoked at all.
-/

namespace GistAI

/-- A langchain `Document`: extracted text plus source metadata (app.py uses
`Document(page_content=..., metadata={...})`; metadata is modelled as an
association list). -/
structure Document where
  page_content : String
  metadata : List (String × String)
deriving DecidableEq

/-- Character class `[a-zA-Z0-9_-]` of the four video-id capture groups
(app.py:22-25). -/
def idChar (c : Char) : Bool := c.isAlpha || c.isDigit || c == '_' || c == '-'

/-- Model of Python `str.strip()` with no arguments: remove leading and
trailing whitespace (used in the truthiness tests at app.py:50 and
app.py:688). -/
def pyStrip (s : String) : String :=
  String.mk (((s.data.dropWhile Char.isWhitespace).reverse.dropWhile Char.isWhitespace).reverse)

/-- Match a literal at the head of a list: `some rest` on success.  This is
the building block for the embedded regex fragments, which are all literals
apart from the capture groups. -/
def stripLit : List Char → List Char → Option (List Char)
  | [], s => some s
  | _ :: _, [] => none
  | p :: ps, c :: cs => if p = c then stripLit ps cs else none

/-- The literal `https://` alternative of `(?:https?:\/\/)?`. -/
def schemeHttps : List Char := ['h','t','t','p','s',':','/','/']

/-- The literal `http://` alternative of `(?:https?:\/\/)?`. -/
def schemeHttp : List Char := ['h','t','t','p',':','/','/']

/-- The literal of `(?:www\.)?`. -/
def wwwDot : List Char := ['w','w','w','.']

/-- Consume the optional scheme `(?:https?:\/\/)?` (greedy, deterministic:
`https://` and `http://` differ at index 4, and neither overlaps the `www.`
or core literals that follow). -/
def stripScheme (s : List Char) : List Char :=
  match stripLit schemeHttps s with
  | some r => r
  | none =>
    match stripLit schemeHttp s with
    | some r => r
    | none => s

/-- Consume the optional `(?:www\.)?`. -/
def stripWWW (s : List Char) : List Char :=
  match stripLit wwwDot s with
  | some r => r
  | none => s

/-- Try to match one full pattern at the current position: optional scheme,
optional `www.`, the core literal, then the greedy capture `([a-zA-Z0-9_-]+)`
(at least one id character; the capture is the maximal run). -/
def matchPatAt (core s : List Char) : Option (List Char) :=
  match stripLit core (stripWWW (stripScheme s)) with
  | none => none
  | some rest =>
    let cap := rest.takeWhile idChar
    if cap.isEmpty then none else some cap

/-- `re.search` for one pattern: try every start position from the left and
return the first capture. -/
def searchPat (core : List Char) : List Char → Option (List Char)
  | [] => matchPatAt core []
  | c :: t =>
    match matchPatAt core (c :: t) with
    | some r => some r
    | none => searchPat core t

/-- Core literal of pattern 1, `youtube\.com\/watch\?v=` (app.py:22). -/
def coreWatch : List Char := ['y','o','u','t','u','b','e','.','c','o','m','/','w','a','t','c','h','?','v','=']

/-- Core literal of pattern 2, `youtu\.be\/` (app.py:23). -/
def coreShort : List Char := ['y','o','u','t','u','.','b','e','/']

/-- Core literal of pattern 3, `youtube\.com\/embed\/` (app.py:24). -/
def coreEmbed : List Char := ['y','o','u','t','u','b','e','.','c','o','m','/','e','m','b','e','d','/']

/-- Core literal of pattern 4, `youtube\.com\/v\/` (app.py:25). -/
def coreV : List Char := ['y','o','u','t','u','b','e','.','c','o','m','/','v','/']

/-- `extract_video_id` (app.py:19-32): try the four patterns in order, each
searched anywhere in the input, returning the first capture found. -/
def extract_video_id (url : String) : Option String :=
  [coreWatch, coreShort, coreEmbed, coreV].findSome?
    fun core => (searchPat core url.data).map fun cs => String.mk cs

/-- Literal part of the page-scrape pattern `"title":"([^"]+)"` (app.py:77). -/
def litTitle : List Char := "\"title\":\"".data

/-- Literal part of `"shortDescription":"([^"]+)"` (app.py:80). -/
def litDesc : List Char := "\"shortDescription\":\"".data

/-- Match `LIT([^"]+)"` at the current position: the literal, then a maximal
non-empty run of non-quote characters that must be terminated by a quote. -/
def matchCapAt (lit s : List Char) : Option (List Char) :=
  match stripLit lit s with
  | none => none
  | some rest =>
    let cap := rest.takeWhile fun c => c != '"'
    if cap.isEmpty then none
    else if cap.length < rest.length then some cap
    else none

/-- `re.search` for the page-scrape patterns. -/
def searchCap (lit : List Char) : List Char → Option (List Char)
  | [] => matchCapAt lit []
  | c :: t =>
    match matchCapAt lit (c :: t) with
    | some r => some r
    | none => searchCap lit t

/-- Search for the embedded `"title":"..."` field of the fetched page. -/
def searchTitle (body : String) : Option String :=
  (searchCap litTitle body.data).map fun cs => String.mk cs

/-- Search for the embedded `"shortDescription":"..."` field. -/
def searchDesc (body : String) : Option String :=
  (searchCap litDesc body.data).map fun cs => String.mk cs

/-- Oracles for the external effects of `load_youtube_content`:
`method1`-`method3` are the three YoutubeLoader strategies of app.py:41-45
(`none` = the call raised, `some docs` = the loaded documents);
`api_transcript` is the youtube_transcript_api block of app.py:56-67
(`none` = some step raised, `some texts` = the fetched transcript fragment
texts); `page` is the `requests.get` of app.py:74 (`none` = raised,
`some (status, body)` = the HTTP response). -/
structure YtEnv where
  method1 : Option (List Document)
  method2 : Option (List Document)
  method3 : Option (List Document)
  api_transcript : Option (List String)
  page : Option (Nat × String)
deriving DecidableEq

/-- The guard of the strategy loop (app.py:50): a strategy result is accepted
only when it returned documents, the list is non-empty, and the first
document's stripped text is non-empty; otherwise the loop continues. -/
def methodOk : Option (List Document) → Option (List Document)
  | none => none
  | some docs =>
    match docs with
    | [] => none
    | d :: _ => if pyStrip d.page_content = "" then none else some docs

/-- `load_youtube_content` (app.py:34-89).  Returns the result (`.error` =
the raised exception's message) paired with the ordered list of network
strategies that were attempted before the function returned. -/
def load_youtube_content (url : String) (env : YtEnv) :
    Except String (List Document × String) × List String :=
  match extract_video_id url with
  | none => (.error "Could not extract video ID from URL", [])
  | some vid =>
    match methodOk env.method1 with
    | some docs => (.ok (docs, "transcript"), ["loader_url"])
    | none =>
    match methodOk env.method2 with
    | some docs => (.ok (docs, "transcript"), ["loader_url", "loader_id"])
    | none =>
    match methodOk env.method3 with
    | some docs => (.ok (docs, "transcript"), ["loader_url", "loader_id", "loader_lang"])
    | none =>
    match env.api_transcript with
    | some items =>
      (.ok ([⟨String.intercalate " " items, [("source", url)]⟩], "transcript"),
       ["loader_url", "loader_id", "loader_lang", "transcript_api"])
    | none =>
    match env.page with
    | some (status, body) =>
      if status = 200 then
        let title := (searchTitle body).getD ("YouTube Video " ++ vid)
        let descr := (searchDesc body).getD "No description available."
        let content := "Title: " ++ title ++ "\n\nDescription: " ++ descr
        (.ok ([⟨content, [("source", url), ("title", title)]⟩], "basic_info"),
         ["loader_url", "loader_id", "loader_lang", "transcript_api", "page_fetch"])
      else
        (.error "Unable to extract content from YouTube video",
         ["loader_url", "loader_id", "loader_lang", "transcript_api", "page_fetch"])
    | none =>
      (.error "Unable to extract content from YouTube video",
       ["loader_url", "loader_id", "loader_lang", "transcript_api", "page_fetch"])

/-- Result record of a `load_pdf_content` run: the returned value (or raised
message), whether the temporary file written at app.py:95-97 still exists on
disk after the function finished, and whether the re-split branch of
app.py:120-122 was taken. -/
structure PdfRun where
  result : Except String (List Document)
  tmp_file_remains : Bool
  resplit : Bool

/-- The chunk size passed to RecursiveCharacterTextSplitter (app.py:111). -/
def pdf_chunk_size : Nat := 4000

/-- The chunk overlap passed to RecursiveCharacterTextSplitter (app.py:112). -/
def pdf_chunk_overlap : Nat := 200

/-- `load_pdf_content` (app.py:91-127).  `parse` is the PyPDFLoader oracle
(`.error msg` models `loader.load()` raising; the write of the uploaded
bytes is assumed to succeed, which is the earliest point at which the
temporary file exists).  `split` is the external
RecursiveCharacterTextSplitter's `split_documents`, kept abstract.  Control
flow of the source: the temp file is written with `delete=False`, the loader
runs, `os.unlink` runs only after a successful load, the empty check raises,
the page texts are joined with `"\n\n"` and the splitter is applied only
when the joined length exceeds 10000; any exception is re-raised wrapped in
`"Error processing PDF: "`. -/
def load_pdf_content (split : List Document → List Document)
    (parse : Except String (List Document)) : PdfRun :=
  match parse with
  | .error msg => ⟨.error ("Error processing PDF: " ++ msg), true, false⟩
  | .ok documents =>
    if documents = [] then
      ⟨.error ("Error processing PDF: " ++ "No content extracted from PDF"), false, false⟩
    else
      let full_text := String.intercalate "\n\n" (documents.map fun d => d.page_content)
      if full_text.length > 10000 then ⟨.ok (split documents), false, true⟩
      else ⟨.ok documents, false, false⟩

/-- The bare concatenation of the page texts of a PDF, with no separator:
this is the reading of "concatenated page text" used by the claims, to be
compared with the `"\n\n"`-joined text the code actually measures. -/
def concatPages (docs : List Document) : String :=
  String.join (docs.map fun d => d.page_content)

/-- The three content kinds of the radio selector (app.py:522-527). -/
inductive CType where
  | youtube
  | website
  | pdf
deriving DecidableEq

/-- The credential check of app.py:626-628: `os.getenv` returns `None` when
the variable is unset, and `if not groq_api_key` also treats an empty string
as missing. -/
def keyMissing : Option String → Bool
  | none => true
  | some k => k = ""

/-- The content-loading branch (app.py:651-681): selects the loader for the
chosen kind and converts its failure into the fixed user-facing message of
that branch (YouTube app.py:656, website app.py:669-671, PDF app.py:679).
The website branch additionally raises on an empty document list
(app.py:668-669). -/
def pipelineExt (ctype : CType)
    (yt : Except String (List Document × String))
    (web : Except String (List Document))
    (pdf : Except String (List Document)) : Except String (List Document) :=
  match ctype with
  | .youtube =>
    match yt with
    | .ok (docs, _) => .ok docs
    | .error _ => .error "Could not extract content from YouTube video"
  | .website =>
    match web with
    | .ok docs => if docs = [] then .error "Could not extract content from website" else .ok docs
    | .error _ => .error "Could not extract content from website"
  | .pdf =>
    match pdf with
    | .ok docs => .ok docs
    | .error e => .error ("Could not process PDF: " ++ e)

/-- Scanner model of Python's `str.split()` with no arguments: split on runs
of whitespace, with no empty tokens (used at app.py:721 and app.py:731 as
`len(x.split())`).  `acc` holds the reversed current word. -/
def py_split_go : List Char → List Char → List (List Char)
  | [], acc => if acc.isEmpty then [] else [acc.reverse]
  | c :: t, acc =>
    if c.isWhitespace then
      if acc.isEmpty then py_split_go t [] else acc.reverse :: py_split_go t []
    else py_split_go t (c :: acc)

/-- Python `s.split()`. -/
def py_split (l : List Char) : List (List Char) := py_split_go l []

/-- Code-side word count, `len(s.split())`. -/
def pyWordCount (s : String) : Nat := (py_split s.data).length

/-- Modelled from the spec: "the number of whitespace-separated tokens",
counted directly as the number of maximal non-whitespace runs.  `inWord`
records whether the previous character was part of a token. -/
def tokenRuns : Bool → List Char → Nat
  | _, [] => 0
  | inWord, c :: t =>
    if c.isWhitespace then tokenRuns false t
    else (if inWord then 0 else 1) + tokenRuns true t

/-- Modelled from the spec: the whitespace-token count of a string. -/
def whitespaceTokenCount (s : String) : Nat := tokenRuns false s.data

/-- Outcome of one top-level run (the user-visible result). -/
inductive RunOutcome where
  | missingKey
  | extractionError (msg : String)
  | summaryError
  | success (summary : String) (docCount summaryWords sourceWords : Nat)
deriving DecidableEq

/-- The top-level run from the credential check onward (app.py:626-753),
for an input that already passed the URL/file validation: check the API key
(app.py:626-629), load content for the selected kind (app.py:651-681, via
`pipelineExt` whose arguments are the extraction oracles), call the chain
(`summarize`, the LLM oracle, app.py:684-685), and accept the summary only
if it is non-empty and not whitespace-only (app.py:688), computing the three
displayed metrics (app.py:704-734).  The second component records whether
any extraction work was invoked. -/
def run_app (ctype : CType) (key : Option String)
    (yt : Except String (List Document × String))
    (web : Except String (List Document))
    (pdf : Except String (List Document))
    (summarize : List Document → String) : RunOutcome × Bool :=
  if keyMissing key then (.missingKey, false)
  else
    match pipelineExt ctype yt web pdf with
    | .error msg => (.extractionError msg, true)
    | .ok docs =>
      let summary := summarize docs
      if summary ≠ "" ∧ pyStrip summary ≠ "" then
        (.success summary docs.length (pyWordCount summary)
          (pyWordCount (String.intercalate " " (docs.map fun d => d.page_content))), true)
      else (.summaryError, true)

/-! ### Basic string and literal-matching lemmas -/

theorem data_append (a b : String) : (a ++ b).data = a.data ++ b.data := rfl

theorem mk_data (s : String) : String.mk s.data = s := rfl

theorem mk_data_list (l : List Char) : (String.mk l).data = l := rfl

theorem length_append_str (a b : String) : (a ++ b).length = a.length + b.length := by
  show (a ++ b).data.length = a.data.length + b.data.length
  rw [data_append, List.length_append]

theorem stripLit_self : (p t : List Char) → stripLit p (p ++ t) = some t
  | [], _ => rfl
  | c :: ps, t => by simp [stripLit, stripLit_self ps t]

theorem mem_of_stripLit : (p l r : List Char) → stripLit p l = some r → ∀ x ∈ p, x ∈ l
  | [], _, _, _, x, hx => absurd hx (List.not_mem_nil x)
  | _ :: _, [], _, h, _, _ => by simp [stripLit] at h
  | a :: ps, b :: cs, r, h, x, hx => by
    by_cases hab : a = b
    · subst hab
      simp only [stripLit, if_pos rfl] at h
      rcases List.mem_cons.mp hx with hxa | hxp
      · exact hxa ▸ List.mem_cons_self a cs
      · exact List.mem_cons_of_mem a (mem_of_stripLit ps cs r h x hxp)
    · simp [stripLit, hab] at h

theorem isPrefixOfAppend : (l t : List Char) → List.isPrefixOf l (l ++ t) = true
  | [], _ => by simp [List.isPrefixOf]
  | a :: as, t => by simp [List.isPrefixOf, isPrefixOfAppend as t]

theorem takeWhile_all (p : Char → Bool) :
    (l : List Char) → (∀ c ∈ l, p c = true) → l.takeWhile p = l
  | [], _ => rfl
  | c :: t, hl => by
    have hc : p c = true := hl c (List.mem_cons_self c t)
    have ht := takeWhile_all p t fun d hd => hl d (List.mem_cons_of_mem c hd)
    simp [List.takeWhile_cons, hc, ht]

theorem isEmpty_false_of_ne {l : List Char} (h : l ≠ []) : l.isEmpty = false := by
  cases l with
  | nil => exact absurd rfl h
  | cons a t => rfl

/-! ### Positive lemmas about the pattern matcher -/

theorem stripScheme_https (t : List Char) : stripScheme (schemeHttps ++ t) = t := by
  simp [stripScheme, stripLit_self]

theorem stripWWW_www (t : List Char) : stripWWW (wwwDot ++ t) = t := by
  simp [stripWWW, stripLit_self]

theorem stripScheme_cons (c : Char) (t : List Char) (h : c ≠ 'h') :
    stripScheme (c :: t) = c :: t := by
  simp [stripScheme, schemeHttps, schemeHttp, stripLit, Ne.symm h]

theorem stripWWW_cons (c : Char) (t : List Char) (h : c ≠ 'w') :
    stripWWW (c :: t) = c :: t := by
  simp [stripWWW, wwwDot, stripLit, Ne.symm h]

theorem matchPatAt_core_www (core i : List Char) (hne : i ≠ [])
    (hid : ∀ c ∈ i, idChar c = true) :
    matchPatAt core (schemeHttps ++ (wwwDot ++ (core ++ i))) = some i := by
  have h1 := stripScheme_https (wwwDot ++ (core ++ i))
  have h2 := stripWWW_www (core ++ i)
  have h3 := stripLit_self core i
  have h4 := takeWhile_all idChar i hid
  have h5 := isEmpty_false_of_ne hne
  simp [matchPatAt, h1, h2, h3, h4, h5]

theorem matchPatAt_core_scheme (core i : List Char) (hne : i ≠ [])
    (hid : ∀ c ∈ i, idChar c = true)
    (hw : stripWWW (core ++ i) = core ++ i) :
    matchPatAt core (schemeHttps ++ (core ++ i)) = some i := by
  have h1 := stripScheme_https (core ++ i)
  have h3 := stripLit_self core i
  have h4 := takeWhile_all idChar i hid
  have h5 := isEmpty_false_of_ne hne
  simp [matchPatAt, h1, hw, h3, h4, h5]

theorem matchPatAt_core_start (core : List Char) (c : Char) (r : List Char)
    (hc : idChar c = true)
    (hs : stripScheme (core ++ (c :: r)) = core ++ (c :: r))
    (hw : stripWWW (core ++ (c :: r)) = core ++ (c :: r)) :
    ∃ cap, matchPatAt core (core ++ (c :: r)) = some cap := by
  have h3 := stripLit_self core (c :: r)
  refine ⟨c :: r.takeWhile idChar, ?_⟩
  simp [matchPatAt, hs, hw, h3, List.takeWhile_cons, hc]

theorem searchPat_of_matchPatAt (core s r : List Char) (h : matchPatAt core s = some r) :
    searchPat core s = some r := by
  cases s with
  | nil => simpa [searchPat] using h
  | cons c t => simp [searchPat, h]

theorem searchPat_ex_append (core : List Char) :
    (pre t : List Char) → (r : List Char) → matchPatAt core t = some r →
      ∃ v, searchPat core (pre ++ t) = some v
  | [], t, r, h => ⟨r, by simpa using searchPat_of_matchPatAt core t r h⟩
  | c :: pre, t, r, h => by
    obtain ⟨v, hv⟩ := searchPat_ex_append core pre t r h
    cases hm : matchPatAt core (c :: (pre ++ t)) with
    | some w => exact ⟨w, by simp [searchPat, List.cons_append, hm]⟩
    | none => exact ⟨v, by simp [searchPat, List.cons_append, hm, hv]⟩

theorem matchPatAt_corelist_start (core : List Char)
    (hcore : core = coreWatch ∨ core = coreShort ∨ core = coreEmbed ∨ core = coreV)
    (c : Char) (r : List Char) (hc : idChar c = true) :
    ∃ cap, matchPatAt core (core ++ (c :: r)) = some cap := by
  have hy : ∃ t, core = 'y' :: t := by
    rcases hcore with rfl | rfl | rfl | rfl
    · exact ⟨_, rfl⟩
    · exact ⟨_, rfl⟩
    · exact ⟨_, rfl⟩
    · exact ⟨_, rfl⟩
  obtain ⟨t, ht⟩ := hy
  have hs : stripScheme (core ++ (c :: r)) = core ++ (c :: r) := by
    rw [ht, List.cons_append]
    exact stripScheme_cons _ _ (by decide)
  have hw : stripWWW (core ++ (c :: r)) = core ++ (c :: r) := by
    rw [ht, List.cons_append]
    exact stripWWW_cons _ _ (by decide)
  exact matchPatAt_core_start core c r hc hs hw

theorem extract_some_of_core (url : String) (core v : List Char)
    (hcore : core = coreWatch ∨ core = coreShort ∨ core = coreEmbed ∨ core = coreV)
    (hv : searchPat core url.data = some v) :
    ∃ w, extract_video_id url = some w := by
  rcases hcore with rfl | rfl | rfl | rfl
  · exact ⟨String.mk v, by simp [extract_video_id, List.findSome?, hv]⟩
  · cases hW : searchPat coreWatch url.data with
    | some w => exact ⟨String.mk w, by simp [extract_video_id, List.findSome?, hW]⟩
    | none => exact ⟨String.mk v, by simp [extract_video_id, List.findSome?, hW, hv]⟩
  · cases hW : searchPat coreWatch url.data with
    | some w => exact ⟨String.mk w, by simp [extract_video_id, List.findSome?, hW]⟩
    | none =>
      cases hS : searchPat coreShort url.data with
      | some w => exact ⟨String.mk w, by simp [extract_video_id, List.findSome?, hW, hS]⟩
      | none => exact ⟨String.mk v, by simp [extract_video_id, List.findSome?, hW, hS, hv]⟩
  · cases hW : searchPat coreWatch url.data with
    | some w => exact ⟨String.mk w, by simp [extract_video_id, List.findSome?, hW]⟩
    | none =>
      cases hS : searchPat coreShort url.data with
      | some w => exact ⟨String.mk w, by simp [extract_video_id, List.findSome?, hW, hS]⟩
      | none =>
        cases hE : searchPat coreEmbed url.data with
        | some w =>
          exact ⟨String.mk w, by simp [extract_video_id, List.findSome?, hW, hS, hE]⟩
        | none =>
          exact ⟨String.mk v, by simp [extract_video_id, List.findSome?, hW, hS, hE, hv]⟩

/-! ### Negative lemmas: no pattern matches inside an all-id-character tail -/

theorem matchPatAt_none_allId (core : List Char) (hc : ∃ x ∈ core, idChar x = false)
    (l : List Char) (hl : ∀ c ∈ l, idChar c = true) : matchPatAt core l = none := by
  obtain ⟨x, hxc, hxf⟩ := hc
  have h1 : stripLit schemeHttps l = none := by
    cases hp : stripLit schemeHttps l with
    | none => rfl
    | some r =>
      have := hl ':' (mem_of_stripLit _ _ _ hp ':' (by decide))
      exact absurd this (by decide)
  have h2 : stripLit schemeHttp l = none := by
    cases hp : stripLit schemeHttp l with
    | none => rfl
    | some r =>
      have := hl ':' (mem_of_stripLit _ _ _ hp ':' (by decide))
      exact absurd this (by decide)
  have h3 : stripLit wwwDot l = none := by
    cases hp : stripLit wwwDot l with
    | none => rfl
    | some r =>
      have := hl '.' (mem_of_stripLit _ _ _ hp '.' (by decide))
      exact absurd this (by decide)
  have h4 : stripLit core l = none := by
    cases hp : stripLit core l with
    | none => rfl
    | some r =>
      have := hl x (mem_of_stripLit _ _ _ hp x hxc)
      rw [this] at hxf
      exact absurd hxf (by decide)
  simp [matchPatAt, stripScheme, stripWWW, h1, h2, h3, h4]

theorem searchPat_none_allId (core : List Char) (hc : ∃ x ∈ core, idChar x = false) :
    (l : List Char) → (∀ c ∈ l, idChar c = true) → searchPat core l = none
  | [], hl => by
    simp [searchPat, matchPatAt_none_allId core hc [] hl]
  | c :: t, hl => by
    have h1 := matchPatAt_none_allId core hc (c :: t) hl
    have h2 := searchPat_none_allId core hc t fun d hd => hl d (List.mem_cons_of_mem c hd)
    simp [searchPat, h1, h2]

/-! ### Skip lemmas: the earlier patterns find no match in the later URL
shapes.  Each proof steps the search through every start position inside the
concrete part of the URL (where every attempted match fails on concrete
characters) and closes the all-id-character tail with `searchPat_none_allId`. -/

theorem skip_watch_in_short (l : List Char) (hl : ∀ c ∈ l, idChar c = true) :
    searchPat coreWatch (schemeHttps ++ (coreShort ++ l)) = none := by
  have htail : searchPat coreWatch l = none :=
    searchPat_none_allId coreWatch (by decide) l hl
  simp only [coreWatch] at htail
  simp only [schemeHttps, coreShort, List.cons_append, List.nil_append]
  simp +decide [searchPat, matchPatAt, stripScheme, stripWWW, stripLit, schemeHttps,
    schemeHttp, wwwDot, coreWatch, htail]

theorem skip_watch_in_embed (l : List Char) (hl : ∀ c ∈ l, idChar c = true) :
    searchPat coreWatch (schemeHttps ++ (wwwDot ++ (coreEmbed ++ l))) = none := by
  have htail : searchPat coreWatch l = none :=
    searchPat_none_allId coreWatch (by decide) l hl
  simp only [coreWatch] at htail
  simp only [schemeHttps, wwwDot, coreEmbed, List.cons_append, List.nil_append]
  simp +decide [searchPat, matchPatAt, stripScheme, stripWWW, stripLit, schemeHttps,
    schemeHttp, wwwDot, coreWatch, htail]

theorem skip_short_in_embed (l : List Char) (hl : ∀ c ∈ l, idChar c = true) :
    searchPat coreShort (schemeHttps ++ (wwwDot ++ (coreEmbed ++ l))) = none := by
  have htail : searchPat coreShort l = none :=
    searchPat_none_allId coreShort (by decide) l hl
  simp only [coreShort] at htail
  simp only [schemeHttps, wwwDot, coreEmbed, List.cons_append, List.nil_append]
  simp +decide [searchPat, matchPatAt, stripScheme, stripWWW, stripLit, schemeHttps,
    schemeHttp, wwwDot, coreShort, htail]

theorem skip_watch_in_v (l : List Char) (hl : ∀ c ∈ l, idChar c = true) :
    searchPat coreWatch (schemeHttps ++ (wwwDot ++ (coreV ++ l))) = none := by
  have htail : searchPat coreWatch l = none :=
    searchPat_none_allId coreWatch (by decide) l hl
  simp only [coreWatch] at htail
  simp only [schemeHttps, wwwDot, coreV, List.cons_append, List.nil_append]
  simp +decide [searchPat, matchPatAt, stripScheme, stripWWW, stripLit, schemeHttps,
    schemeHttp, wwwDot, coreWatch, htail]

theorem skip_short_in_v (l : List Char) (hl : ∀ c ∈ l, idChar c = true) :
    searchPat coreShort (schemeHttps ++ (wwwDot ++ (coreV ++ l))) = none := by
  have htail : searchPat coreShort l = none :=
    searchPat_none_allId coreShort (by decide) l hl
  simp only [coreShort] at htail
  simp only [schemeHttps, wwwDot, coreV, List.cons_append, List.nil_append]
  simp +decide [searchPat, matchPatAt, stripScheme, stripWWW, stripLit, schemeHttps,
    schemeHttp, wwwDot, coreShort, htail]

theorem skip_embed_in_v (l : List Char) (hl : ∀ c ∈ l, idChar c = true) :
    searchPat coreEmbed (schemeHttps ++ (wwwDot ++ (coreV ++ l))) = none := by
  have htail : searchPat coreEmbed l = none :=
    searchPat_none_allId coreEmbed (by decide) l hl
  simp only [coreEmbed] at htail
  simp only [schemeHttps, wwwDot, coreV, List.cons_append, List.nil_append]
  simp +decide [searchPat, matchPatAt, stripScheme, stripWWW, stripLit, schemeHttps,
    schemeHttp, wwwDot, coreEmbed, htail]

/-! ### Word-count lemmas: the scanner model of Python `str.split()` counts
exactly the maximal non-whitespace runs -/

theorem py_split_go_length :
    (l acc : List Char) →
      (py_split_go l acc).length = (if acc.isEmpty then 0 else 1) + tokenRuns (!acc.isEmpty) l
  | [], acc => by
    cases acc with
    | nil => simp [py_split_go, tokenRuns]
    | cons a as => simp [py_split_go, tokenRuns]
  | c :: t, acc => by
    by_cases hw : c.isWhitespace
    · cases acc with
      | nil =>
        have := py_split_go_length t []
        simp [py_split_go, tokenRuns, hw, this]
      | cons a as =>
        have := py_split_go_length t []
        simp [py_split_go, tokenRuns, hw, this]
        omega
    · have := py_split_go_length t (c :: acc)
      cases acc with
      | nil =>
        simp [py_split_go, tokenRuns, hw, this]
      | cons a as =>
        simp [py_split_go, tokenRuns, hw, this]

theorem pyWordCount_eq (s : String) : pyWordCount s = whitespaceTokenCount s := by
  have := py_split_go_length s.data []
  simpa [pyWordCount, py_split, whitespaceTokenCount] using this

/-! ### The strategy-loop guard -/

theorem methodOk_shape (m : Option (List Document)) (docs : List Document)
    (h : methodOk m = some docs) :
    ∃ d rest, docs = d :: rest ∧ pyStrip d.page_content ≠ "" := by
  cases m with
  | none => simp [methodOk] at h
  | some l =>
    cases l with
    | nil => simp [methodOk] at h
    | cons d rest =>
      by_cases hd : pyStrip d.page_content = ""
      · simp [methodOk, hd] at h
      · refine ⟨d, rest, ?_, hd⟩
        simp only [methodOk, if_neg hd, Option.some.injEq] at h
        exact h.symm

/-! ### Claim theorems -/

/-- C1 (code evaluated at the failing input): when the PyPDFLoader parse of
the written temporary file raises, `load_pdf_content` re-raises the wrapped
error but never reaches the `os.unlink` call (app.py:104), so the temporary
file written at app.py:95-97 with `delete=False` is left on disk.  This
contradicts the claim that the temporary file is deleted on every exit path
including exceptions. -/
theorem C1_temp_file_left_on_error :
    (load_pdf_content (fun docs => docs) (.error "EOF marker not found")).tmp_file_remains = true
    ∧ (load_pdf_content (fun docs => docs) (.error "EOF marker not found")).result
        = .error "Error processing PDF: EOF marker not found" :=
  ⟨rfl, rfl⟩

/-- C2 counterexample: a run in which the three loader strategies raise and
the youtube_transcript_api block succeeds with an empty list of transcript
fragments (app.py:56-67) returns successfully, yet the single returned
Document has empty text — extraction success does not guarantee non-empty
text for every returned Document. -/
theorem C2_success_with_empty_text :
    (load_youtube_content "https://youtu.be/abc"
        ⟨none, none, none, some [], none⟩).1
      = .ok ([⟨"", [("source", "https://youtu.be/abc")]⟩], "transcript")
    ∧ (Document.mk "" [("source", "https://youtu.be/abc")]).page_content = "" :=
  ⟨rfl, rfl⟩

/-- C2 amended: only the three-strategy loader loop checks text at all, and
it checks only the FIRST document (app.py:50): when extraction succeeds
through one of the three loader strategies, the returned sequence is
non-empty and its first document has non-empty stripped text; the other
success paths (transcript-api join, basic-info, website, PDF) do not enforce
per-document non-empty text. -/
theorem C2_loader_head_nonempty (url : String) (env : YtEnv) (docs : List Document)
    (hvid : ∃ vid, extract_video_id url = some vid)
    (hm : methodOk env.method1 = some docs
        ∨ (methodOk env.method1 = none ∧ methodOk env.method2 = some docs)
        ∨ (methodOk env.method1 = none ∧ methodOk env.method2 = none
            ∧ methodOk env.method3 = some docs)) :
    (load_youtube_content url env).1 = .ok (docs, "transcript")
    ∧ ∃ d rest, docs = d :: rest ∧ pyStrip d.page_content ≠ "" := by
  obtain ⟨vid, hvid⟩ := hvid
  rcases hm with h1 | ⟨h1, h2⟩ | ⟨h1, h2, h3⟩
  · exact ⟨by simp [load_youtube_content, hvid, h1], methodOk_shape _ _ h1⟩
  · exact ⟨by simp [load_youtube_content, hvid, h1, h2], methodOk_shape _ _ h2⟩
  · exact ⟨by simp [load_youtube_content, hvid, h1, h2, h3], methodOk_shape _ _ h3⟩

/-- C2 witness: a first-strategy success whose first document is non-empty
(the second document's text is empty, which the guard does not inspect). -/
theorem C2_loader_head_nonempty_witness :
    (load_youtube_content "https://youtu.be/abc"
        ⟨some [⟨"hello", []⟩, ⟨"", []⟩], none, none, none, none⟩).1
      = .ok ([⟨"hello", []⟩, ⟨"", []⟩], "transcript")
    ∧ ∃ d rest, [Document.mk "hello" [], Document.mk "" []] = d :: rest
        ∧ pyStrip d.page_content ≠ "" :=
  C2_loader_head_nonempty "https://youtu.be/abc"
    ⟨some [⟨"hello", []⟩, ⟨"", []⟩], none, none, none, none⟩
    [⟨"hello", []⟩, ⟨"", []⟩] ⟨"abc", by decide⟩ (Or.inl (by decide))

/-- C3 counterexample: a two-page PDF whose bare concatenated page text is
exactly 10000 characters.  The code measures the pages joined with `"\n\n"`
(app.py:117), which is 10002 characters here, so it takes the re-split
branch instead of returning the original pages unmodified, refuting the
claim for "exactly 10,000 characters or fewer". -/
theorem C3_boundary_resplit :
    (concatPages [⟨String.mk (List.replicate 9999 'a'), []⟩, ⟨"b", []⟩]).length = 10000
    ∧ (load_pdf_content (fun docs => docs)
        (.ok [⟨String.mk (List.replicate 9999 'a'), []⟩, ⟨"b", []⟩])).resplit = true := by
  have hx : (String.mk (List.replicate 9999 'a')).length = 9999 := by
    show (List.replicate 9999 'a').length = 9999
    rw [List.length_replicate]
  constructor
  · have e : concatPages [⟨String.mk (List.replicate 9999 'a'), []⟩, ⟨"b", []⟩]
        = ("" ++ String.mk (List.replicate 9999 'a')) ++ "b" := rfl
    rw [e, length_append_str, length_append_str, hx]
    decide
  · have e2 : String.intercalate "\n\n"
        (([⟨String.mk (List.replicate 9999 'a'), []⟩, ⟨"b", []⟩] : List Document).map
          fun d => d.page_content)
        = (String.mk (List.replicate 9999 'a') ++ "\n\n") ++ "b" := rfl
    have hlen : ((String.mk (List.replicate 9999 'a') ++ "\n\n") ++ "b").length = 10002 := by
      rw [length_append_str, length_append_str, hx]
      decide
    simp only [load_pdf_content, e2, hlen]
    rw [if_neg (List.cons_ne_nil _ _)]
    norm_num

/-- C3 amended: the 10000-character threshold is evaluated on the page texts
joined with `"\n\n"` (two extra characters per page boundary), not on their
bare concatenation: when the joined text has at most 10000 characters the
original per-page documents are returned unmodified (so the returned length
equals the page count), and when it exceeds 10000 characters the result is
the configured splitter (chunk size 4000, overlap 200) applied to the
per-page documents. -/
theorem C3_joined_threshold (split : List Document → List Document)
    (documents : List Document) (hne : documents ≠ []) :
    ((String.intercalate "\n\n" (documents.map fun d => d.page_content)).length ≤ 10000 →
      load_pdf_content split (.ok documents) = ⟨.ok documents, false, false⟩)
    ∧ (10000 < (String.intercalate "\n\n" (documents.map fun d => d.page_content)).length →
      load_pdf_content split (.ok documents) = ⟨.ok (split documents), false, true⟩) := by
  constructor
  · intro h
    simp [load_pdf_content, hne, Nat.not_lt.mpr h]
  · intro h
    simp [load_pdf_content, hne, h]

/-- C3 witness: a one-page PDF below the threshold is returned unmodified. -/
theorem C3_joined_threshold_witness :
    load_pdf_content (fun docs => docs) (.ok [⟨"hello", []⟩])
      = ⟨.ok [⟨"hello", []⟩], false, false⟩ :=
  (C3_joined_threshold (fun docs => docs) [⟨"hello", []⟩] (by decide)).1 (by decide)

/-- C4: when no recognized YouTube URL shape can be parsed out of the input,
`load_youtube_content` raises the invalid-video-id error immediately
(app.py:37-38) and the list of attempted network strategies is empty: no
loader strategy, no transcript-api call and no page fetch is attempted,
whatever those oracles would have answered. -/
theorem C4_invalid_id_before_network (url : String) (env : YtEnv)
    (h : extract_video_id url = none) :
    load_youtube_content url env = (.error "Could not extract video ID from URL", []) := by
  simp [load_youtube_content, h]

/-- C4 witness: a non-YouTube URL fails immediately even though every
network oracle would have succeeded. -/
theorem C4_invalid_id_before_network_witness :
    load_youtube_content "https://example.com/watch"
        ⟨some [⟨"t", []⟩], some [⟨"t", []⟩], some [⟨"t", []⟩], some ["t"], some (200, "b")⟩
      = (.error "Could not extract video ID from URL", []) :=
  C4_invalid_id_before_network "https://example.com/watch"
    ⟨some [⟨"t", []⟩], some [⟨"t", []⟩], some [⟨"t", []⟩], some ["t"], some (200, "b")⟩
    (by decide)

/-- C5: for every non-empty video id made of id characters, each of the four
recognized URL shapes built from it (standard watch URL, short youtu.be
form, embed form, legacy /v/ form) is mapped by `extract_video_id` back to
that identical id. -/
theorem C5_four_shapes (i : String) (hne : i.data ≠ [])
    (hid : ∀ c ∈ i.data, idChar c = true) :
    extract_video_id ("https://www.youtube.com/watch?v=" ++ i) = some i
    ∧ extract_video_id ("https://youtu.be/" ++ i) = some i
    ∧ extract_video_id ("https://www.youtube.com/embed/" ++ i) = some i
    ∧ extract_video_id ("https://www.youtube.com/v/" ++ i) = some i := by
  refine ⟨?_, ?_, ?_, ?_⟩
  · have hd : ("https://www.youtube.com/watch?v=" ++ i).data
        = schemeHttps ++ (wwwDot ++ (coreWatch ++ i.data)) := by
      rw [data_append]
      rw [show "https://www.youtube.com/watch?v=".data
          = (schemeHttps ++ wwwDot) ++ coreWatch from by decide]
      simp [List.append_assoc]
    have hm := matchPatAt_core_www coreWatch i.data hne hid
    have hs := searchPat_of_matchPatAt _ _ _ hm
    simp [extract_video_id, List.findSome?, hd, hs, mk_data]
  · have hd : ("https://youtu.be/" ++ i).data = schemeHttps ++ (coreShort ++ i.data) := by
      rw [data_append]
      rw [show "https://youtu.be/".data = schemeHttps ++ coreShort from by decide]
      simp [List.append_assoc]
    have hw : stripWWW (coreShort ++ i.data) = coreShort ++ i.data := by
      rw [show coreShort ++ i.data
          = 'y' :: (['o','u','t','u','.','b','e','/'] ++ i.data) from rfl]
      exact stripWWW_cons _ _ (by decide)
    have hm := matchPatAt_core_scheme coreShort i.data hne hid hw
    have hsS := searchPat_of_matchPatAt _ _ _ hm
    have hsW := skip_watch_in_short i.data hid
    simp [extract_video_id, List.findSome?, hd, hsW, hsS, mk_data]
  · have hd : ("https://www.youtube.com/embed/" ++ i).data
        = schemeHttps ++ (wwwDot ++ (coreEmbed ++ i.data)) := by
      rw [data_append]
      rw [show "https://www.youtube.com/embed/".data
          = (schemeHttps ++ wwwDot) ++ coreEmbed from by decide]
      simp [List.append_assoc]
    have hm := matchPatAt_core_www coreEmbed i.data hne hid
    have hsE := searchPat_of_matchPatAt _ _ _ hm
    have hsW := skip_watch_in_embed i.data hid
    have hsS := skip_short_in_embed i.data hid
    simp [extract_video_id, List.findSome?, hd, hsW, hsS, hsE, mk_data]
  · have hd : ("https://www.youtube.com/v/" ++ i).data
        = schemeHttps ++ (wwwDot ++ (coreV ++ i.data)) := by
      rw [data_append]
      rw [show "https://www.youtube.com/v/".data
          = (schemeHttps ++ wwwDot) ++ coreV from by decide]
      simp [List.append_assoc]
    have hm := matchPatAt_core_www coreV i.data hne hid
    have hsV := searchPat_of_matchPatAt _ _ _ hm
    have hsW := skip_watch_in_v i.data hid
    have hsS := skip_short_in_v i.data hid
    have hsE := skip_embed_in_v i.data hid
    simp [extract_video_id, List.findSome?, hd, hsW, hsS, hsE, hsV, mk_data]

/-- C5 witness: the four shapes for a concrete id. -/
theorem C5_four_shapes_witness :
    extract_video_id ("https://www.youtube.com/watch?v=" ++ "dQw4w9WgXcQ") = some "dQw4w9WgXcQ"
    ∧ extract_video_id ("https://youtu.be/" ++ "dQw4w9WgXcQ") = some "dQw4w9WgXcQ"
    ∧ extract_video_id ("https://www.youtube.com/embed/" ++ "dQw4w9WgXcQ") = some "dQw4w9WgXcQ"
    ∧ extract_video_id ("https://www.youtube.com/v/" ++ "dQw4w9WgXcQ") = some "dQw4w9WgXcQ" :=
  C5_four_shapes "dQw4w9WgXcQ" (by decide) (by decide)

/-- C6: when the three loader strategies and the transcript-api block all
fail and the page fetch returns status 200, the result is a single Document
tagged `basic_info` whose text is exactly
`"Title: " ++ title ++ "\n\nDescription: " ++ descr` (hence begins with
`"Title: "`), where the title falls back to `"YouTube Video " ++ id` when
the page embeds no `"title":"..."` field and the description falls back to
the literal `"No description available."`. -/
theorem C6_basic_info_format (url vid body : String) (env : YtEnv)
    (hvid : extract_video_id url = some vid)
    (h1 : methodOk env.method1 = none) (h2 : methodOk env.method2 = none)
    (h3 : methodOk env.method3 = none) (hapi : env.api_transcript = none)
    (hpage : env.page = some (200, body)) :
    ∃ title descr,
      (load_youtube_content url env).1
        = .ok ([⟨"Title: " ++ title ++ "\n\nDescription: " ++ descr,
                 [("source", url), ("title", title)]⟩], "basic_info")
      ∧ title = (searchTitle body).getD ("YouTube Video " ++ vid)
      ∧ descr = (searchDesc body).getD "No description available."
      ∧ (searchTitle body = none → title = "YouTube Video " ++ vid)
      ∧ (searchDesc body = none → descr = "No description available.")
      ∧ "Title: ".data.isPrefixOf
          ("Title: " ++ title ++ "\n\nDescription: " ++ descr).data = true := by
  refine ⟨(searchTitle body).getD ("YouTube Video " ++ vid),
    (searchDesc body).getD "No description available.", ?_, rfl, rfl, ?_, ?_, ?_⟩
  · simp [load_youtube_content, hvid, h1, h2, h3, hapi, hpage]
  · intro h0
    simp [h0]
  · intro h0
    simp [h0]
  · simp only [data_append, List.append_assoc]
    exact isPrefixOfAppend _ _

/-- C6 witness: all transcript strategies fail, the page fetch returns 200
with a body embedding neither field, and both defaults fire. -/
theorem C6_basic_info_format_witness :
    ∃ title descr,
      (load_youtube_content "https://youtu.be/abc"
          ⟨none, none, none, none, some (200, "plain body")⟩).1
        = .ok ([⟨"Title: " ++ title ++ "\n\nDescription: " ++ descr,
                 [("source", "https://youtu.be/abc"), ("title", title)]⟩], "basic_info")
      ∧ title = (searchTitle "plain body").getD ("YouTube Video " ++ "abc")
      ∧ descr = (searchDesc "plain body").getD "No description available."
      ∧ (searchTitle "plain body" = none → title = "YouTube Video " ++ "abc")
      ∧ (searchDesc "plain body" = none → descr = "No description available.")
      ∧ "Title: ".data.isPrefixOf
          ("Title: " ++ title ++ "\n\nDescription: " ++ descr).data = true :=
  C6_basic_info_format "https://youtu.be/abc" "abc" "plain body"
    ⟨none, none, none, none, some (200, "plain body")⟩ (by decide) rfl rfl rfl rfl rfl

/-- C7: for every content kind, when the API credential is missing (unset or
empty), the run reports the credential error and stops with no extraction
work invoked, whatever the extraction and summarization oracles would have
answered. -/
theorem C7_missing_key_short_circuit (ctype : CType) (key : Option String)
    (yt : Except String (List Document × String)) (web pdf : Except String (List Document))
    (summarize : List Document → String) (h : keyMissing key = true) :
    run_app ctype key yt web pdf summarize = (.missingKey, false) := by
  simp [run_app, h]

/-- C7 witness: a PDF run with no key stops before extraction. -/
theorem C7_missing_key_short_circuit_witness :
    run_app .pdf none (.error "e") (.error "e") (.ok [⟨"t", []⟩]) (fun _ => "s")
      = (.missingKey, false) :=
  C7_missing_key_short_circuit .pdf none (.error "e") (.error "e") (.ok [⟨"t", []⟩])
    (fun _ => "s") rfl

/-- C8: when the key is present and extraction succeeds but the
text-generation call returns a whitespace-only (or empty) string, the check
at app.py:688 fails and the run reports the summary-generation failure
branch (app.py:749-750), never a vacuous success. -/
theorem C8_blank_summary_fails (ctype : CType) (key : Option String)
    (yt : Except String (List Document × String)) (web pdf : Except String (List Document))
    (summarize : List Document → String) (docs : List Document)
    (hkey : keyMissing key = false)
    (hext : pipelineExt ctype yt web pdf = .ok docs)
    (hsum : pyStrip (summarize docs) = "") :
    run_app ctype key yt web pdf summarize = (.summaryError, true) := by
  simp [run_app, hkey, hext, hsum]

/-- C8 witness: a website run whose LLM oracle returns three spaces. -/
theorem C8_blank_summary_fails_witness :
    run_app .website (some "k") (.error "e") (.ok [⟨"x", []⟩]) (.error "e") (fun _ => "   ")
      = (.summaryError, true) :=
  C8_blank_summary_fails .website (some "k") (.error "e") (.ok [⟨"x", []⟩]) (.error "e")
    (fun _ => "   ") [⟨"x", []⟩] rfl rfl (by decide)

/-- C9: on every successful run the displayed summary word count is the
whitespace-token count of the returned summary text and the displayed
source word count is the whitespace-token count of the document texts
joined with single spaces (the code computes both via `len(x.split())`,
app.py:721 and app.py:731, which `pyWordCount_eq` proves equal to the
spec-side token count). -/
theorem C9_word_count_metrics (ctype : CType) (key : Option String)
    (yt : Except String (List Document × String)) (web pdf : Except String (List Document))
    (summarize : List Document → String) (docs : List Document)
    (hkey : keyMissing key = false)
    (hext : pipelineExt ctype yt web pdf = .ok docs)
    (h1 : summarize docs ≠ "") (h2 : pyStrip (summarize docs) ≠ "") :
    run_app ctype key yt web pdf summarize
      = (.success (summarize docs) docs.length
          (whitespaceTokenCount (summarize docs))
          (whitespaceTokenCount (String.intercalate " " (docs.map fun d => d.page_content))),
         true) := by
  simp [run_app, hkey, hext, h1, h2, pyWordCount_eq]

/-- C9 witness: a concrete successful PDF run with the two token counts
evaluated. -/
theorem C9_word_count_metrics_witness :
    run_app .pdf (some "k") (.error "e") (.error "e") (.ok [⟨"a b c", []⟩])
        (fun _ => "two words")
      = (.success "two words" 1 (whitespaceTokenCount "two words")
          (whitespaceTokenCount "a b c"), true)
    ∧ whitespaceTokenCount "two words" = 2 ∧ whitespaceTokenCount "a b c" = 3 :=
  ⟨C9_word_count_metrics .pdf (some "k") (.error "e") (.error "e") (.ok [⟨"a b c", []⟩])
      (fun _ => "two words") [⟨"a b c", []⟩] rfl rfl (by decide) (by decide),
   by decide, by decide⟩

/-- C10: the four patterns are searched unanchored and in a fixed order
(watch, youtu.be, embed, /v/).  First conjunct: for EVERY one of the four
recognized shapes, every string that merely contains that shape (its core
literal followed by at least one id character) as a substring — arbitrary
text before and after, including a non-YouTube host — yields `some` id
rather than `none`.  Second conjunct: for every input string, the value
returned is the capture of the first pattern in that fixed order whose
unanchored search succeeds.  The two concrete conjuncts exhibit a foreign
host embedding the shape, and pattern order beating position order (the
watch capture wins although the youtu.be shape occurs earlier). -/
theorem C10_unanchored_first_pattern :
    (∀ core, core ∈ [coreWatch, coreShort, coreEmbed, coreV] →
      ∀ (pre ivid post : List Char), ivid ≠ [] → (∀ c ∈ ivid, idChar c = true) →
        ∃ v, extract_video_id (String.mk (pre ++ (core ++ (ivid ++ post)))) = some v)
    ∧ (∀ (url : String) (cap : List Char),
        (searchPat coreWatch url.data = some cap →
          extract_video_id url = some (String.mk cap))
        ∧ (searchPat coreWatch url.data = none →
            searchPat coreShort url.data = some cap →
          extract_video_id url = some (String.mk cap))
        ∧ (searchPat coreWatch url.data = none → searchPat coreShort url.data = none →
            searchPat coreEmbed url.data = some cap →
          extract_video_id url = some (String.mk cap))
        ∧ (searchPat coreWatch url.data = none → searchPat coreShort url.data = none →
            searchPat coreEmbed url.data = none → searchPat coreV url.data = some cap →
          extract_video_id url = some (String.mk cap)))
    ∧ extract_video_id "see https://evil.example/r?u=youtu.be/abc123&x=1 there" = some "abc123"
    ∧ extract_video_id "youtu.be/firstvid then youtube.com/watch?v=secondvid"
        = some "secondvid" := by
  refine ⟨?_, ?_, by decide, by decide⟩
  · intro core hcore pre ivid post hne hid
    have hcore2 : core = coreWatch ∨ core = coreShort ∨ core = coreEmbed ∨ core = coreV := by
      simpa using hcore
    cases ivid with
    | nil => exact absurd rfl hne
    | cons c r =>
      obtain ⟨cap, hcap⟩ :=
        matchPatAt_corelist_start core hcore2 c (r ++ post) (hid c (List.mem_cons_self c r))
      obtain ⟨v, hv⟩ := searchPat_ex_append core pre _ cap hcap
      refine extract_some_of_core _ core v hcore2 ?_
      rw [mk_data_list, List.cons_append]
      exact hv
  · intro url cap
    refine ⟨?_, ?_, ?_, ?_⟩
    · intro h1
      simp [extract_video_id, List.findSome?, h1]
    · intro h1 h2
      simp [extract_video_id, List.findSome?, h1, h2]
    · intro h1 h2 h3
      simp [extract_video_id, List.findSome?, h1, h2, h3]
    · intro h1 h2 h3 h4
      simp [extract_video_id, List.findSome?, h1, h2, h3, h4]

/-- C10 witness: the substring part applied to the embed shape surrounded by
text, and the order part applied to a youtu.be URL on which the watch
pattern finds nothing and the youtu.be pattern captures the id. -/
theorem C10_unanchored_first_pattern_witness :
    (∃ v, extract_video_id
        (String.mk ("x ".data ++ (coreEmbed ++ (['a', 'b'] ++ " y".data)))) = some v)
    ∧ extract_video_id "https://youtu.be/zz9" = some (String.mk ['z', 'z', '9']) :=
  ⟨C10_unanchored_first_pattern.1 coreEmbed (by decide) "x ".data ['a', 'b'] " y".data
      (by decide) (by decide),
   (C10_unanchored_first_pattern.2.1 "https://youtu.be/zz9" ['z', 'z', '9']).2.1
      (by decide) (by decide)⟩

end GistAI
